import Mathlib

/-
Verification of the langgraph-chatbot repository (src/chatbot.py).

The repository wires a chat model, a search tool and the langgraph
orchestration library into a console chat loop.  The library primitives it
uses (the add_messages reducer, tools_condition, ToolNode, MemorySaver) are
not part of the repository source; where a property depends on them they are
modelled from the specification, faithful to its words, and marked as such.
The console loop, stream_graph_updates and the thread configuration are
embedded directly from src/chatbot.py.
-/

namespace Chatbot

/-- Role of one conversation turn (user | assistant | tool). -/
inductive Role
  | user
  | assistant
  | tool
deriving DecidableEq

/-- One requested tool invocation attached to an assistant message:
tool_name, arguments and call_id, per the spec data model. -/
structure ToolCallRequest where
  tool_name : String
  arguments : String
  call_id : String
deriving DecidableEq

/-- One conversation turn.  `tool_call_requests` is the ordered sequence of
tool invocations an assistant message asks for; `tool_call_id` links a
tool-result message to the request it answers. -/
structure Message where
  role : Role
  content : String
  tool_call_requests : List ToolCallRequest
  tool_call_id : Option String
deriving DecidableEq

/-- The user message built from one console input line
(src/chatbot.py line 88: messages = [("user", user_input)]). -/
def mkUserMessage (s : String) : Message :=
  ⟨Role.user, s, [], none⟩

/-- Modelled from the spec: the `add_messages` reducer annotated on
`State.messages` (src/chatbot.py line 25) is langgraph library code not under
src/; the source comment and the spec state that it appends messages to the
list rather than overwriting them. -/
def add_messages (existing new : List Message) : List Message :=
  existing ++ new

/-- Modelled from the spec: the per-thread message store kept by the
checkpointer (library code not under src/): a map from thread_id to the
ordered message list, represented as an association list. -/
abbrev MessageStore : Type :=
  List (String × List Message)

/-- `load(thread_id)`: the ordered message sequence of a thread; the empty
sequence if the thread is unknown (spec 4.1: not an error). -/
def load (store : MessageStore) (thread_id : String) : List Message :=
  match store.find? (fun p => p.fst == thread_id) with
  | some p => p.snd
  | none => []

/-- `save(thread_id, messages)`: replace the stored sequence of one thread,
leaving every other thread untouched. -/
def save (store : MessageStore) (thread_id : String) (msgs : List Message) :
    MessageStore :=
  (thread_id, msgs) :: store.filter (fun p => p.fst != thread_id)

/-- `append(thread_id, message)` of spec 4.1, expressed through save/load
with the add_messages reducer. -/
def appendMessage (store : MessageStore) (thread_id : String) (m : Message) :
    MessageStore :=
  save store thread_id (add_messages (load store thread_id) [m])

/-- A whole sequence of appends to one thread, in order. -/
def appendAll (store : MessageStore) (thread_id : String)
    (ms : List Message) : MessageStore :=
  ms.foldl (fun acc m => appendMessage acc thread_id m) store

/-- Routing outcome of the conditional edge out of the chatbot node
(src/chatbot.py lines 59-68): either the "tools" node or END. -/
inductive Route
  | tools
  | END
deriving DecidableEq

/-- Modelled from the spec: `tools_condition` (langgraph.prebuilt, used at
src/chatbot.py line 61) is library code not under src/; per the source
comment and the spec it returns "tools" if the last (assistant) message asks
to use a tool, i.e. carries non-empty tool_call_requests, and END otherwise. -/
def tools_condition (messages : List Message) : Route :=
  match messages.getLast? with
  | some m => if m.tool_call_requests.isEmpty then Route.END else Route.tools
  | none => Route.END

/-- A registered tool: a name and an invocation function.  The invocation
may fail (ToolExecutionError), returned as an error value. -/
structure ToolDefinition where
  name : String
  invoke : String → Except String String

/-- Registry lookup by tool name (spec 4.2). -/
def lookupTool (registry : List ToolDefinition) (n : String) :
    Option ToolDefinition :=
  registry.find? (fun td => td.name == n)

/-- Modelled from the spec: one tool_call_request handled by ToolNode
(langgraph.prebuilt, src/chatbot.py line 54 — library code not under src/).
An unknown tool name (UnknownToolError) and a failing invocation
(ToolExecutionError) are both converted to a tool-result message carrying an
error payload rather than aborting the loop. -/
def runToolCall (registry : List ToolDefinition) (req : ToolCallRequest) :
    Message :=
  match lookupTool registry req.tool_name with
  | none =>
      ⟨Role.tool, "Error: " ++ req.tool_name ++ " is not a valid tool.",
        [], some req.call_id⟩
  | some td =>
      match td.invoke req.arguments with
      | Except.ok r => ⟨Role.tool, r, [], some req.call_id⟩
      | Except.error e => ⟨Role.tool, "Error: " ++ e, [], some req.call_id⟩

/-- Modelled from the spec: the ToolNode dispatcher (src/chatbot.py lines
54-55, library code not under src/): one result message per request, in
request order. -/
def ToolNode (registry : List ToolDefinition)
    (reqs : List ToolCallRequest) : List Message :=
  reqs.map (runToolCall registry)

/-- A tool-result message carrying an error payload. -/
def ErrorBearing (m : Message) : Prop :=
  m.role = Role.tool ∧ ∃ rest, m.content = "Error: " ++ rest

/-- The three loop-controller states of spec 4.3. -/
inductive LoopState
  | AWAITING_MODEL
  | DISPATCHING_TOOLS
  | DONE
deriving DecidableEq

/-- The transient state of one agent turn: the controller state plus the
thread messages. -/
structure AgentState where
  loop : LoopState
  messages : List Message
deriving DecidableEq

/-- The tool_call_requests pending after the chatbot node ran: those of the
latest appended (assistant) message. -/
def pendingRequests (msgs : List Message) : List ToolCallRequest :=
  match msgs.getLast? with
  | some m => m.tool_call_requests
  | none => []

/-- One super-step of the compiled graph (src/chatbot.py lines 52-79), as the
explicit state machine of spec 4.3.  In AWAITING_MODEL the chatbot node
appends the model answer and the conditional edge (tools_condition) routes to
the tools node or END; in DISPATCHING_TOOLS the ToolNode appends its results
and the fixed edge tools → chatbot (line 70) returns to the model. -/
def loopStep (model : List Message → Message)
    (registry : List ToolDefinition) (s : AgentState) : AgentState :=
  match s.loop with
  | LoopState.AWAITING_MODEL =>
      let m := model s.messages
      if m.tool_call_requests.isEmpty then
        ⟨LoopState.DONE, add_messages s.messages [m]⟩
      else
        ⟨LoopState.DISPATCHING_TOOLS, add_messages s.messages [m]⟩
  | LoopState.DISPATCHING_TOOLS =>
      ⟨LoopState.AWAITING_MODEL,
        add_messages s.messages
          (ToolNode registry (pendingRequests s.messages))⟩
  | LoopState.DONE => s

/-- Iterated super-steps of the graph. -/
def iterateLoop (model : List Message → Message)
    (registry : List ToolDefinition) : Nat → AgentState → AgentState
  | 0, s => s
  | Nat.succ n, s => iterateLoop model registry n (loopStep model registry s)

/-- An example model answer with no tool requests, and an example tool
request, used by concrete witnesses below. -/
def plainAnswer : Message :=
  ⟨Role.assistant, "LangGraph is an orchestration library.", [], none⟩

def searchRequest : ToolCallRequest :=
  ⟨"search", "weather Paris", "c1"⟩

def toolReqAnswer : Message :=
  ⟨Role.assistant, "Let me search.", [searchRequest], none⟩

/-- Modelled from the spec: MemorySaver (src/chatbot.py line 18, imported
from langgraph.checkpoint.memory — library code not under src/).  The spec
leaves the persistence medium open ("could be memory-resident"); the source
selects the memory-resident variant, whose storage is an in-process map. -/
abbrev MemorySaver : Type :=
  MessageStore

/-- The checkpointer constructed at process start (src/chatbot.py line 18):
a fresh, empty in-memory store. -/
def newMemorySaver : MemorySaver :=
  ([] : MessageStore)

/-- A process restart: the MemorySaver is an in-process object, so a new
process run constructs a fresh empty one; nothing carries over. -/
def processRestart (_old : MemorySaver) : MemorySaver :=
  newMemorySaver

/-- The thread configuration (src/chatbot.py line 82): the config dict pins
thread_id to the constant "1" for every graph invocation. -/
def config_thread_id : String :=
  "1"

/-- Result of streaming one turn of the compiled graph: the state snapshots
emitted after each super-step (stream_mode="values"), the final thread
messages, and how many times the model was invoked. -/
structure TurnResult where
  events : List (List Message)
  finalMessages : List Message
  modelCalls : Nat
deriving DecidableEq

/-- Fuel-bounded run of the graph from a given agent state, collecting the
value snapshot emitted after each super-step, until the turn reaches DONE
(or fuel runs out; claims about turns always supply enough fuel). -/
def runStream (model : List Message → Message)
    (registry : List ToolDefinition) : Nat → AgentState → TurnResult
  | 0, s => ⟨[], s.messages, 0⟩
  | Nat.succ fuel, s =>
    match s.loop with
    | LoopState.DONE => ⟨[], s.messages, 0⟩
    | LoopState.AWAITING_MODEL =>
        let s2 := loopStep model registry s
        let r := runStream model registry fuel s2
        ⟨s2.messages :: r.events, r.finalMessages, r.modelCalls + 1⟩
    | LoopState.DISPATCHING_TOOLS =>
        let s2 := loopStep model registry s
        let r := runStream model registry fuel s2
        ⟨s2.messages :: r.events, r.finalMessages, r.modelCalls⟩

/-- The last message content of a snapshot, as printed by
`print("Assistant:", event["messages"][-1].content)` (src/chatbot.py
line 93). -/
def lastContent (msgs : List Message) : String :=
  match msgs.getLast? with
  | some m => m.content
  | none => ""

/-- Observable outcome of one `stream_graph_updates` call: the checkpointer
after the turn, the lines printed to the console, and the number of model
invocations. -/
structure StreamOutcome where
  saver : MemorySaver
  printed : List String
  modelCalls : Nat
deriving DecidableEq

/-- stream_graph_updates (src/chatbot.py lines 85-93): append the user input
to the thread named by config_thread_id, stream the graph with
stream_mode="values" — which emits the state after the input is applied and
after every super-step — and print the last message content of every emitted
event; the checkpointer keeps the final thread state. -/
def stream_graph_updates (model : List Message → Message)
    (registry : List ToolDefinition) (fuel : Nat) (saver : MemorySaver)
    (user_input : String) : StreamOutcome :=
  let history := load saver config_thread_id
  let init := add_messages history [mkUserMessage user_input]
  let r := runStream model registry fuel ⟨LoopState.AWAITING_MODEL, init⟩
  let events := init :: r.events
  ⟨save saver config_thread_id r.finalMessages,
    events.map (fun e => "Assistant: " ++ lastContent e),
    r.modelCalls⟩

/-- What `input("User: ")` produced: a line, or an exception (EOF, no
console), caught by the bare except at src/chatbot.py line 104. -/
inductive ReadResult
  | line (s : String)
  | failure

/-- Observable outcome of one iteration of the interactive while loop:
whether the loop breaks (the script then falls off the end, exit code 0),
the exit code on termination, the console lines printed, the checkpointer
afterwards, and the number of model invocations. -/
structure IterOutcome where
  terminated : Bool
  exitCode : Nat
  printed : List String
  saver : MemorySaver
  modelCalls : Nat
deriving DecidableEq

/-- The terminate commands recognized at src/chatbot.py line 99. -/
def quitCommands : List String :=
  ["quit", "exit", "q"]

/-- Python str.lower as used at src/chatbot.py line 99: lowercase every
character (the inputs compared against are ASCII). -/
def lower (s : String) : String :=
  String.mk (s.data.map Char.toLower)

/-- The hard-coded fallback input of the bare-except branch
(src/chatbot.py line 106). -/
def fallbackInput : String :=
  "What do you know about LangGraph?"

/-- One iteration of the interactive chat loop (src/chatbot.py lines
96-109): a line whose lowercase form is a quit command prints "Goodbye!" and
breaks; any other line runs one chat turn and loops; an input failure
substitutes the fallback question, echoes it, runs one chat turn and
breaks. -/
def chat_loop_iter (model : List Message → Message)
    (registry : List ToolDefinition) (fuel : Nat) (saver : MemorySaver)
    (read : ReadResult) : IterOutcome :=
  match read with
  | ReadResult.line user_input =>
      if quitCommands.contains (lower user_input) then
        ⟨true, 0, ["Goodbye!"], saver, 0⟩
      else
        let r := stream_graph_updates model registry fuel saver user_input
        ⟨false, 0, r.printed, r.saver, r.modelCalls⟩
  | ReadResult.failure =>
      let r := stream_graph_updates model registry fuel saver fallbackInput
      ⟨true, 0, ("User: " ++ fallbackInput) :: r.printed, r.saver,
        r.modelCalls⟩

/-- Concrete end-to-end scenario (spec 8.6): a registry holding one search
tool, a scripted model that first requests the tool with call_id "c1" and
then answers, and the resulting thread. -/
def searchTool : ToolDefinition :=
  ⟨"search", fun _args => Except.ok "Sunny, 22C"⟩

def scenarioRegistry : List ToolDefinition :=
  [searchTool]

def finalAnswer : Message :=
  ⟨Role.assistant, "It is sunny in Paris.", [], none⟩

/-- The scripted model collaborator of the scenario: on the first invocation
(history is just the user message) it requests the search tool; re-invoked
after the tool result it returns the final answer. -/
def scenarioModel (history : List Message) : Message :=
  if history.length ≤ 1 then toolReqAnswer else finalAnswer

/-- The tool-result message the dispatcher produces for searchRequest. -/
def searchResult : Message :=
  ⟨Role.tool, "Sunny, 22C", [], some "c1"⟩

def scenarioInput : String :=
  "What is the weather in Paris?"

def scenarioOutcome : StreamOutcome :=
  stream_graph_updates scenarioModel scenarioRegistry 10 newMemorySaver
    scenarioInput

theorem find?_filter_ne (st : MessageStore) (tid tid2 : String)
    (h : tid2 ≠ tid) :
    ((st.filter (fun p => p.fst != tid)).find? (fun p => p.fst == tid2)) =
      st.find? (fun p => p.fst == tid2) := by
  induction st with
  | nil => rfl
  | cons a st ih =>
    by_cases ha : a.fst = tid
    · have hdrop : (a.fst != tid) = false := by simp [ha]
      have hpred : (a.fst == tid2) = false := by
        simp [ha]
        exact fun hh => h hh.symm
      simp [List.filter_cons, hdrop, List.find?_cons, hpred, ih]
    · have hkeep : (a.fst != tid) = true := by simp [ha]
      by_cases hb : a.fst = tid2
      · have hpred : (a.fst == tid2) = true := by simp [hb]
        simp [List.filter_cons, hkeep, List.find?_cons, hpred]
      · have hpred : (a.fst == tid2) = false := by simp [hb]
        simp [List.filter_cons, hkeep, List.find?_cons, hpred, ih]

theorem load_save (st : MessageStore) (tid tid2 : String)
    (msgs : List Message) :
    load (save st tid msgs) tid2 =
      if tid2 = tid then msgs else load st tid2 := by
  by_cases h : tid2 = tid
  · subst h
    simp [load, save, List.find?_cons]
  · have hne : (tid == tid2) = false := by
      simp
      exact fun hh => h hh.symm
    simp [load, save, List.find?_cons, hne, find?_filter_ne st tid tid2 h, h]

theorem load_appendMessage (st : MessageStore) (t u : String) (m : Message) :
    load (appendMessage st t m) u =
      if u = t then load st u ++ [m] else load st u := by
  by_cases h : u = t
  · subst h
    simp [appendMessage, add_messages, load_save]
  · simp [appendMessage, add_messages, load_save, h]

theorem load_appendAll (st : MessageStore) (tid : String)
    (ms : List Message) :
    load (appendAll st tid ms) tid = load st tid ++ ms := by
  induction ms generalizing st with
  | nil => simp [appendAll]
  | cons m ms ih =>
    have hstep : appendAll st tid (m :: ms) =
        appendAll (appendMessage st tid m) tid ms := rfl
    rw [hstep, ih, load_appendMessage]
    simp

/-- C1: append-only message store.  Loading a thread after a sequence of N
appends returns exactly those N messages after the previously stored ones, in
append order (exactly the N messages when the store started empty); and a
single append to thread t leaves the loaded sequence of every thread either
untouched (other threads) or extended by exactly the one new message at the
end (thread t) — no stored message is altered, reordered or deleted. -/
theorem append_only_invariant (store : MessageStore) (tid : String)
    (ms : List Message) :
    load (appendAll store tid ms) tid = load store tid ++ ms ∧
    load (appendAll ([] : MessageStore) tid ms) tid = ms ∧
    (∀ (st : MessageStore) (t u : String) (m : Message),
      load (appendMessage st t m) u =
        if u = t then load st u ++ [m] else load st u) := by
  refine ⟨load_appendAll store tid ms, ?_, ?_⟩
  · rw [load_appendAll]
    rfl
  · exact fun st t u m => load_appendMessage st t u m

/-- C2: one-step turn termination.  From AWAITING_MODEL, if the model answer
carries no tool_call_requests, one super-step reaches DONE: the routing
condition evaluates to END (no tool node runs), the assistant message is
appended, and it is the last message of the thread — the turn's answer. -/
theorem termination_one_step (model : List Message → Message)
    (registry : List ToolDefinition) (s : AgentState)
    (hs : s.loop = LoopState.AWAITING_MODEL)
    (h : (model s.messages).tool_call_requests = []) :
    (loopStep model registry s).loop = LoopState.DONE ∧
    tools_condition (loopStep model registry s).messages = Route.END ∧
    (loopStep model registry s).messages = s.messages ++ [model s.messages] ∧
    (loopStep model registry s).messages.getLast? =
      some (model s.messages) := by
  have hempty : (model s.messages).tool_call_requests.isEmpty = true := by
    simp [h]
  refine ⟨?_, ?_, ?_, ?_⟩ <;>
    simp [loopStep, hs, hempty, add_messages, tools_condition]

theorem termination_one_step_witness :
    (loopStep (fun _h => plainAnswer) scenarioRegistry
      ⟨LoopState.AWAITING_MODEL, [mkUserMessage "hi"]⟩).loop =
      LoopState.DONE :=
  (termination_one_step (fun _h => plainAnswer) scenarioRegistry
    ⟨LoopState.AWAITING_MODEL, [mkUserMessage "hi"]⟩ rfl rfl).1

/-- C3: unknown-tool recoverability.  A tool_call_request whose tool_name is
absent from the registry yields a tool-result message carrying an error
payload (the dispatcher is total — no abort), the result is appended to the
thread, and the dispatch step returns control to AWAITING_MODEL. -/
theorem unknown_tool_recoverable (registry : List ToolDefinition)
    (req : ToolCallRequest)
    (hreq : lookupTool registry req.tool_name = none)
    (model : List Message → Message) (msgs : List Message)
    (hpend : pendingRequests msgs = [req]) :
    runToolCall registry req =
      ⟨Role.tool, "Error: " ++ req.tool_name ++ " is not a valid tool.",
        [], some req.call_id⟩ ∧
    ErrorBearing (runToolCall registry req) ∧
    (loopStep model registry ⟨LoopState.DISPATCHING_TOOLS, msgs⟩).loop =
      LoopState.AWAITING_MODEL ∧
    (loopStep model registry ⟨LoopState.DISPATCHING_TOOLS, msgs⟩).messages =
      msgs ++ [runToolCall registry req] := by
  have hrun : runToolCall registry req =
      ⟨Role.tool, "Error: " ++ req.tool_name ++ " is not a valid tool.",
        [], some req.call_id⟩ := by
    simp [runToolCall, hreq]
  refine ⟨hrun, ?_, ?_, ?_⟩
  · rw [hrun]
    exact ⟨rfl, req.tool_name ++ " is not a valid tool.", rfl⟩
  · simp [loopStep]
  · simp [loopStep, hpend, ToolNode, add_messages]

def unknownRequest : ToolCallRequest :=
  ⟨"nosuchtool", "x", "c9"⟩

def unknownReqAnswer : Message :=
  ⟨Role.assistant, "", [unknownRequest], none⟩

theorem unknown_tool_recoverable_witness :
    (loopStep scenarioModel scenarioRegistry
      ⟨LoopState.DISPATCHING_TOOLS,
        [mkUserMessage "hi", unknownReqAnswer]⟩).loop =
      LoopState.AWAITING_MODEL :=
  (unknown_tool_recoverable scenarioRegistry unknownRequest rfl
    scenarioModel [mkUserMessage "hi", unknownReqAnswer] rfl).2.2.1

theorem runToolCall_tool_call_id (registry : List ToolDefinition)
    (req : ToolCallRequest) :
    (runToolCall registry req).tool_call_id = some req.call_id := by
  unfold runToolCall
  split
  · rfl
  · split <;> rfl

/-- C4: tool result order preservation.  For a round with k ≥ 2 requests in
one assistant message, the dispatcher produces exactly one result per
request, the result call_ids follow the request order, and the dispatch step
appends the results in exactly that order before returning to
AWAITING_MODEL.  The dispatcher is a sequential map over the requests, so no
completion timing can reorder them. -/
theorem tool_order_preservation (registry : List ToolDefinition)
    (reqs : List ToolCallRequest) (hk : 2 ≤ reqs.length)
    (model : List Message → Message) (msgs : List Message)
    (hpend : pendingRequests msgs = reqs) :
    (ToolNode registry reqs).length = reqs.length ∧
    (ToolNode registry reqs).map Message.tool_call_id =
      reqs.map (fun r => some r.call_id) ∧
    (loopStep model registry ⟨LoopState.DISPATCHING_TOOLS, msgs⟩).messages =
      msgs ++ ToolNode registry reqs ∧
    (loopStep model registry ⟨LoopState.DISPATCHING_TOOLS, msgs⟩).loop =
      LoopState.AWAITING_MODEL := by
  refine ⟨by simp [ToolNode], ?_, ?_, by simp [loopStep]⟩
  · simp [ToolNode, runToolCall_tool_call_id]
  · simp [loopStep, hpend, add_messages]

def secondRequest : ToolCallRequest :=
  ⟨"search", "news Paris", "c2"⟩

def twoReqAnswer : Message :=
  ⟨Role.assistant, "", [searchRequest, secondRequest], none⟩

theorem tool_order_preservation_witness :
    (ToolNode scenarioRegistry [searchRequest, secondRequest]).map
      Message.tool_call_id = [some "c1", some "c2"] := by
  have h := tool_order_preservation scenarioRegistry
    [searchRequest, secondRequest] (by decide) scenarioModel
    [mkUserMessage "hi", twoReqAnswer] rfl
  exact h.2.1

theorem loop_alternation (model : List Message → Message)
    (registry : List ToolDefinition)
    (hm : ∀ h : List Message, (model h).tool_call_requests ≠ []) :
    ∀ k : Nat,
      (∀ msgs : List Message,
        (iterateLoop model registry k
          ⟨LoopState.AWAITING_MODEL, msgs⟩).loop =
          (if k % 2 = 0 then LoopState.AWAITING_MODEL
            else LoopState.DISPATCHING_TOOLS)) ∧
      (∀ msgs : List Message,
        (iterateLoop model registry k
          ⟨LoopState.DISPATCHING_TOOLS, msgs⟩).loop =
          (if k % 2 = 0 then LoopState.DISPATCHING_TOOLS
            else LoopState.AWAITING_MODEL)) := by
  intro k
  induction k with
  | zero => exact ⟨fun _msgs => rfl, fun _msgs => rfl⟩
  | succ k ih =>
    constructor
    · intro msgs
      have hfalse : (model msgs).tool_call_requests.isEmpty = false := by
        cases hcase : (model msgs).tool_call_requests with
        | nil => exact absurd hcase (hm msgs)
        | cons a l => rfl
      have hstep : loopStep model registry
          ⟨LoopState.AWAITING_MODEL, msgs⟩ =
          ⟨LoopState.DISPATCHING_TOOLS, add_messages msgs [model msgs]⟩ := by
        simp [loopStep, hfalse]
      show (iterateLoop model registry k (loopStep model registry
        ⟨LoopState.AWAITING_MODEL, msgs⟩)).loop = _
      rw [hstep, ih.2 (add_messages msgs [model msgs])]
      by_cases hk : k % 2 = 0
      · have hk2 : ¬ (k + 1) % 2 = 0 := by omega
        simp [hk, hk2]
      · have hk2 : (k + 1) % 2 = 0 := by omega
        simp [hk, hk2]
    · intro msgs
      have hstep : loopStep model registry
          ⟨LoopState.DISPATCHING_TOOLS, msgs⟩ =
          ⟨LoopState.AWAITING_MODEL,
            add_messages msgs
              (ToolNode registry (pendingRequests msgs))⟩ := rfl
      show (iterateLoop model registry k (loopStep model registry
        ⟨LoopState.DISPATCHING_TOOLS, msgs⟩)).loop = _
      rw [hstep, ih.1 (add_messages msgs
        (ToolNode registry (pendingRequests msgs)))]
      by_cases hk : k % 2 = 0
      · have hk2 : ¬ (k + 1) % 2 = 0 := by omega
        simp [hk, hk2]
      · have hk2 : (k + 1) % 2 = 0 := by omega
        simp [hk, hk2]

/-- C8: no round limit.  Against a model that requests tools on every
invocation, the graph performs every round: after 2n super-steps (n model
rounds and n tool rounds) the controller is again at AWAITING_MODEL, and at
no step count does it ever reach DONE — the embedding of the source graph
has no round counter and no LoopLimitExceeded outcome at all. -/
theorem no_round_limit (model : List Message → Message)
    (registry : List ToolDefinition)
    (hm : ∀ h : List Message, (model h).tool_call_requests ≠ [])
    (n : Nat) (msgs : List Message) :
    (iterateLoop model registry (2 * n)
      ⟨LoopState.AWAITING_MODEL, msgs⟩).loop = LoopState.AWAITING_MODEL ∧
    ∀ k : Nat,
      (iterateLoop model registry k
        ⟨LoopState.AWAITING_MODEL, msgs⟩).loop ≠ LoopState.DONE := by
  have halt := loop_alternation model registry hm
  constructor
  · rw [(halt (2 * n)).1 msgs]
    simp [Nat.mul_mod_right]
  · intro k
    rw [(halt k).1 msgs]
    by_cases hk : k % 2 = 0 <;> simp [hk]

theorem no_round_limit_witness :
    (iterateLoop (fun _h => toolReqAnswer) scenarioRegistry 4
      ⟨LoopState.AWAITING_MODEL, []⟩).loop = LoopState.AWAITING_MODEL :=
  (no_round_limit (fun _h => toolReqAnswer) scenarioRegistry
    (fun _h => (by decide : toolReqAnswer.tool_call_requests ≠ [])) 2 []).1

/-- C5 counterexample: in the end-to-end scenario the console does not print
only the final assistant content — stream_graph_updates prints the last
message of every emitted snapshot, so the user line, the tool-request
assistant line and the tool result are printed too. -/
theorem final_answer_only_cex :
    scenarioOutcome.printed ≠ ["Assistant: " ++ finalAnswer.content] := by
  decide

/-- C5 amended: in the end-to-end scenario, loading the thread yields exactly
the 4 messages in order user, assistant-with-tool-request, tool-result, final
assistant; the console prints the last message of each streamed snapshot —
user line, tool-request assistant, tool result, final assistant — with the
final assistant content printed last. -/
theorem scenario_stream_output :
    load scenarioOutcome.saver config_thread_id =
      [mkUserMessage scenarioInput, toolReqAnswer, searchResult,
        finalAnswer] ∧
    scenarioOutcome.printed =
      ["Assistant: " ++ scenarioInput,
        "Assistant: " ++ toolReqAnswer.content,
        "Assistant: " ++ searchResult.content,
        "Assistant: " ++ finalAnswer.content] ∧
    scenarioOutcome.printed.getLast? =
      some ("Assistant: " ++ finalAnswer.content) := by
  refine ⟨?_, ?_, ?_⟩ <;> rfl

/-- C6: terminate command.  A line whose lowercase form is quit, exit or q
terminates the loop with exit code 0, no model invocation and no persistence
action (the checkpointer is returned untouched); any other line does not
terminate and runs one chat turn through stream_graph_updates. -/
theorem terminate_command (model : List Message → Message)
    (registry : List ToolDefinition) (fuel : Nat) (saver : MemorySaver)
    (s : String) :
    (quitCommands.contains (lower s) = true →
      chat_loop_iter model registry fuel saver (ReadResult.line s) =
        ⟨true, 0, ["Goodbye!"], saver, 0⟩) ∧
    (quitCommands.contains (lower s) = false →
      chat_loop_iter model registry fuel saver (ReadResult.line s) =
        ⟨false, 0,
          (stream_graph_updates model registry fuel saver s).printed,
          (stream_graph_updates model registry fuel saver s).saver,
          (stream_graph_updates model registry fuel saver s).modelCalls⟩) := by
  have heq : chat_loop_iter model registry fuel saver (ReadResult.line s) =
      (if quitCommands.contains (lower s) then
        (⟨true, 0, ["Goodbye!"], saver, 0⟩ : IterOutcome)
      else
        ⟨false, 0,
          (stream_graph_updates model registry fuel saver s).printed,
          (stream_graph_updates model registry fuel saver s).saver,
          (stream_graph_updates model registry fuel saver s).modelCalls⟩) :=
    rfl
  constructor
  · intro h
    rw [heq, h]
    simp
  · intro h
    rw [heq, h]
    simp

theorem terminate_command_witness :
    chat_loop_iter scenarioModel scenarioRegistry 10 newMemorySaver
      (ReadResult.line "QUIT") =
      ⟨true, 0, ["Goodbye!"], newMemorySaver, 0⟩ ∧
    (chat_loop_iter scenarioModel scenarioRegistry 10 newMemorySaver
      (ReadResult.line "hello")).terminated = false := by
  constructor
  · exact (terminate_command scenarioModel scenarioRegistry 10 newMemorySaver
      "QUIT").1 (by decide)
  · rw [(terminate_command scenarioModel scenarioRegistry 10 newMemorySaver
      "hello").2 (by decide)]

/-- C7 counterexample: messages saved through the MemorySaver in one process
run are not returned by a load in a later process run — the store is
in-process memory and a restart constructs a fresh empty saver. -/
theorem durable_resumability_cex :
    load (save newMemorySaver config_thread_id [mkUserMessage "hello"])
      config_thread_id = [mkUserMessage "hello"] ∧
    load (processRestart
        (save newMemorySaver config_thread_id [mkUserMessage "hello"]))
      config_thread_id = ([] : List Message) := by
  exact ⟨rfl, rfl⟩

/-- C7 amended: within a single process run the checkpointer round-trips —
load(thread_id) after save(thread_id, messages) returns exactly the saved
messages, so later turns of the same run resume the conversation; the
MemorySaver is in-process memory, so nothing survives a process restart. -/
theorem save_load_roundtrip_in_process (saver : MemorySaver) (tid : String)
    (ms : List Message) :
    load (save saver tid ms) tid = ms := by
  rw [load_save]
  simp

/-- C9: implicit input-failure fallback.  When reading standard input fails,
the bare-except branch does not exit immediately: it substitutes the fixed
question "What do you know about LangGraph?", echoes it as the user line,
runs exactly one chat turn with it, and then breaks out of the loop
(terminating with exit code 0). -/
theorem input_failure_fallback (model : List Message → Message)
    (registry : List ToolDefinition) (fuel : Nat) (saver : MemorySaver) :
    chat_loop_iter model registry fuel saver ReadResult.failure =
      ⟨true, 0,
        ("User: " ++ fallbackInput) ::
          (stream_graph_updates model registry fuel saver
            fallbackInput).printed,
        (stream_graph_updates model registry fuel saver fallbackInput).saver,
        (stream_graph_updates model registry fuel saver
          fallbackInput).modelCalls⟩ ∧
    fallbackInput = "What do you know about LangGraph?" := by
  exact ⟨rfl, rfl⟩

/-- C10: implicit fixed-thread invariant.  Every graph invocation uses the
constant thread_id "1": a turn updates the store exactly by saving under
config_thread_id the final messages of a run started from the history loaded
under config_thread_id, and every other thread is left untouched. -/
theorem fixed_thread_id (model : List Message → Message)
    (registry : List ToolDefinition) (fuel : Nat) (saver : MemorySaver)
    (u : String) (tid : String) (h : tid ≠ config_thread_id) :
    config_thread_id = "1" ∧
    load (stream_graph_updates model registry fuel saver u).saver tid =
      load saver tid ∧
    (stream_graph_updates model registry fuel saver u).saver =
      save saver config_thread_id
        (runStream model registry fuel
          ⟨LoopState.AWAITING_MODEL,
            add_messages (load saver config_thread_id)
              [mkUserMessage u]⟩).finalMessages := by
  refine ⟨rfl, ?_, rfl⟩
  have hsaver : (stream_graph_updates model registry fuel saver u).saver =
      save saver config_thread_id
        (runStream model registry fuel
          ⟨LoopState.AWAITING_MODEL,
            add_messages (load saver config_thread_id)
              [mkUserMessage u]⟩).finalMessages := rfl
  rw [hsaver, load_save]
  simp [h]

def otherThreadSaver : MemorySaver :=
  [("2", [mkUserMessage "other"])]

theorem fixed_thread_id_witness :
    load (stream_graph_updates scenarioModel scenarioRegistry 10
        otherThreadSaver scenarioInput).saver "2" =
      load otherThreadSaver "2" :=
  (fixed_thread_id scenarioModel scenarioRegistry 10 otherThreadSaver
    scenarioInput "2" (by decide)).2.1

end Chatbot
